import Mathlib

/-!
Verification development for the aiperf web backend orchestration core.

The Python sources under src/web/backend are shallowly embedded here:

- storage/database.py : ProfileStatus, ProfileRecord, MetricRecord,
  InMemoryDatabase and its operations (create_profile, get_profile,
  update_profile_status, add_metric, get_metrics).
- services/port_allocator.py : PortAllocator with allocate_ports,
  release_ports and the private block-scan helper.
- services/aiperf_executor.py : the database writes performed by
  stop_run and by the monitor task, and the monitor control flow
  around the completion callback.
- services/profile_controller.py : submit_profile, stop, the per-queue
  worker loop and the per-run execution sequence, with the externally
  visible calls reified as an event trace.
- services/metrics_subscriber.py : the ingestion loop, with the socket
  receive results reified as an event list and the JSON parser taken
  as a parameter.

Python dictionaries are modelled as association lists (the claims are
insensitive to iteration order), datetime.utcnow is passed in as an
explicit Nat timestamp, fallible calls either return Except or are
parametrised by an Option String holding the text of the exception
they raise, and cooperative-concurrency interleavings are modelled as
explicit sequences of the database writes the interleaved tasks issue.
-/

/-! ## Association lists (model of Python dict) -/

/-- Lookup in an association list; model of Python dict indexing / get. -/
def alookup {α : Type} (k : String) : List (String × α) → Option α
  | [] => none
  | kv :: rest => if k = kv.1 then some kv.2 else alookup k rest

/-- Remove a key from an association list; model of Python del. -/
def aremove {α : Type} (k : String) : List (String × α) → List (String × α)
  | [] => []
  | kv :: rest => if k = kv.1 then aremove k rest else kv :: aremove k rest

/-- Insert or overwrite a key; model of Python dict assignment.
Iteration order is not preserved; no embedded claim depends on it. -/
def ainsert {α : Type} (k : String) (v : α) (l : List (String × α)) : List (String × α) :=
  (k, v) :: aremove k l

theorem alookup_ainsert_self {α : Type} (k : String) (v : α) (l : List (String × α)) :
    alookup k (ainsert k v l) = some v := by
  simp [ainsert, alookup]

theorem alookup_ainsert_ne {α : Type} (k k' : String) (v : α) (l : List (String × α))
    (h : k' ≠ k) : alookup k' (ainsert k v l) = alookup k' l := by
  simp only [ainsert, alookup, if_neg h]
  induction l with
  | nil => simp [aremove, alookup]
  | cons kv rest ih =>
    by_cases hk : k = kv.1
    · simp only [aremove, if_pos hk, ih, alookup]
      rw [if_neg (by rw [← hk]; exact h)]
    · simp only [aremove, if_neg hk, alookup, ih]

/-! ## Data model (storage/database.py) -/

/-- Status of an AIPerf profile run (storage/database.py, ProfileStatus). -/
inductive ProfileStatus where
  | pending
  | running
  | completed
  | failed
  | cancelled
deriving DecidableEq

/-- Opaque run configuration map, passed through to the launched process. -/
abbrev Config := List (String × String)

/-- One AIPerf profile run (storage/database.py, ProfileRecord). -/
structure ProfileRecord where
  run_id : String
  queue_name : String
  config : Config
  status : ProfileStatus
  created_at : Nat
  started_at : Option Nat
  completed_at : Option Nat
  error : Option String
deriving DecidableEq

/-- Parsed structured metric payload. The claims never inspect its shape,
so it is represented by its underlying source text. -/
structure MetricData where
  raw : String
deriving DecidableEq

/-- One ingested metric message (storage/database.py, MetricRecord). -/
structure MetricRecord where
  run_id : String
  topic : String
  data : MetricData
  timestamp : Nat
deriving DecidableEq

/-- In-memory store state (storage/database.py, InMemoryDatabase). -/
structure InMemoryDatabase where
  profiles : List (String × ProfileRecord)
  metrics : List (String × List MetricRecord)
deriving DecidableEq

/-- The empty store, as built by the InMemoryDatabase constructor. -/
def emptyDB : InMemoryDatabase := ⟨[], []⟩

/-- Translation of InMemoryDatabase.create_profile. -/
def create_profile (db : InMemoryDatabase) (p : ProfileRecord) : InMemoryDatabase :=
  { profiles := ainsert p.run_id p db.profiles
    metrics := ainsert p.run_id [] db.metrics }

/-- Translation of InMemoryDatabase.get_profile. -/
def get_profile (db : InMemoryDatabase) (run_id : String) : Option ProfileRecord :=
  alookup run_id db.profiles

/-- True on the three terminal statuses, mirroring the membership test
in update_profile_status. -/
def isTerminal (s : ProfileStatus) : Bool :=
  match s with
  | .completed | .failed | .cancelled => true
  | _ => false

/-- Translation of InMemoryDatabase.update_profile_status
(storage/database.py lines 146-165). The run is untouched when absent;
started_at is set only when the new status is RUNNING and it was unset;
completed_at is stamped on every terminal status write; the error field
is overwritten only when the passed error is truthy in Python, that is,
present and non-empty. The current time is passed explicitly. -/
def update_profile_status (db : InMemoryDatabase) (run_id : String)
    (status : ProfileStatus) (error : Option String) (now : Nat) : InMemoryDatabase :=
  match alookup run_id db.profiles with
  | none => db
  | some p =>
    let p1 := { p with status := status }
    let p2 := if status = ProfileStatus.running ∧ p.started_at = none
              then { p1 with started_at := some now } else p1
    let p3 := if isTerminal status then { p2 with completed_at := some now } else p2
    let p4 := match error with
              | none => p3
              | some e => if e = "" then p3 else { p3 with error := some e }
    { db with profiles := ainsert run_id p4 db.profiles }

/-- Translation of InMemoryDatabase.add_metric. -/
def add_metric (db : InMemoryDatabase) (m : MetricRecord) : InMemoryDatabase :=
  match alookup m.run_id db.metrics with
  | none => { db with metrics := ainsert m.run_id [ m ] db.metrics }
  | some l => { db with metrics := ainsert m.run_id (l ++ [ m ]) db.metrics }

/-- Translation of InMemoryDatabase.get_metrics. -/
def get_metrics (db : InMemoryDatabase) (run_id : String) : List MetricRecord :=
  (alookup run_id db.metrics).getD []

/-! ## Port allocator (services/port_allocator.py) -/

/-- Allocated ZMQ ports for one run (models/benchmark.py, ZMQPortAllocation). -/
structure ZMQPortAllocation where
  event_bus_frontend : Nat
  event_bus_backend : Nat
  dataset_frontend : Nat
  dataset_backend : Nat
  raw_inference_frontend : Nat
  raw_inference_backend : Nat
  records_port : Nat
  credit_drop_port : Nat
  credit_return_port : Nat
deriving DecidableEq

/-- PortAllocator.PORT_POOL_START. -/
def PORT_POOL_START : Nat := 6000

/-- PortAllocator.PORT_POOL_END. -/
def PORT_POOL_END : Nat := 6999

/-- PortAllocator.PORTS_PER_RUN. -/
def PORTS_PER_RUN : Nat := 9

/-- Mutable state of a PortAllocator instance: the set of allocated port
numbers and the run-to-allocation mapping. -/
structure PortAllocator where
  allocated_ports : Finset Nat
  port_assignments : List (String × ZMQPortAllocation)
deriving DecidableEq

/-- Allocator state produced by the PortAllocator constructor. -/
def initAllocator : PortAllocator := ⟨∅, []⟩

/-- The ZMQPortAllocation literal built by allocate_ports from a base port
(port_allocator.py lines 31-41). -/
def mkZMQPortAllocation (base : Nat) : ZMQPortAllocation :=
  ⟨base, base + 1, base + 2, base + 3, base + 4, base + 5, base + 6, base + 7, base + 8⟩

/-- The nine ports of an allocation, in the order release_ports iterates
them (port_allocator.py lines 59-69). -/
def allocationPorts (a : ZMQPortAllocation) : List Nat :=
  [ a.event_bus_frontend, a.event_bus_backend, a.dataset_frontend, a.dataset_backend,
    a.raw_inference_frontend, a.raw_inference_backend, a.records_port,
    a.credit_drop_port, a.credit_return_port ]

/-- Inner test of the block scan: every port of the block starting at base
is currently unallocated (the all(...) generator in _find_available_block). -/
def blockFree (alloc : Finset Nat) (base : Nat) : Bool :=
  (List.range' base PORTS_PER_RUN).all (fun p => decide (p ∉ alloc))

/-- Translation of PortAllocator._find_available_block
(port_allocator.py lines 74-83): first-fit scan of the candidate bases
range(PORT_POOL_START, PORT_POOL_END - PORTS_PER_RUN). -/
def find_available_block (alloc : Finset Nat) : Option Nat :=
  (List.range' PORT_POOL_START (PORT_POOL_END - PORTS_PER_RUN - PORT_POOL_START)).find?
    (fun base => blockFree alloc base)

/-- Marking loop of allocate_ports (port_allocator.py lines 44-45):
adds every port of the block starting at base to the allocated set. -/
def markBlock (alloc : Finset Nat) (base : Nat) : Finset Nat :=
  (List.range' base PORTS_PER_RUN).foldl (fun acc p => insert p acc) alloc

/-- Translation of PortAllocator.allocate_ports (port_allocator.py
lines 21-48). The RuntimeError raised on a full pool becomes the error
branch of Except. -/
def allocate_ports (s : PortAllocator) (run_id : String) :
    Except String (ZMQPortAllocation × PortAllocator) :=
  match find_available_block s.allocated_ports with
  | none => Except.error "No available ports in pool"
  | some base =>
    Except.ok (mkZMQPortAllocation base,
      { allocated_ports := markBlock s.allocated_ports base
        port_assignments := ainsert run_id (mkZMQPortAllocation base) s.port_assignments })

/-- Translation of PortAllocator.release_ports (port_allocator.py
lines 50-72): silently returns when the run holds no allocation, else
discards its nine ports and removes the mapping. -/
def release_ports (s : PortAllocator) (run_id : String) : PortAllocator :=
  match alookup run_id s.port_assignments with
  | none => s
  | some allocation =>
    { allocated_ports := (allocationPorts allocation).foldl (fun acc p => acc.erase p) s.allocated_ports
      port_assignments := aremove run_id s.port_assignments }

/-- Allocation returned by one allocate_ports call, when it succeeds. -/
def allocResultOf (s : PortAllocator) (run_id : String) : Option ZMQPortAllocation :=
  match allocate_ports s run_id with
  | Except.ok (a, _) => some a
  | Except.error _ => none

/-- Allocator state after one allocate_ports call (unchanged on error). -/
def allocStep (s : PortAllocator) (run_id : String) : PortAllocator :=
  match allocate_ports s run_id with
  | Except.ok (_, s1) => s1
  | Except.error _ => s

/-- States of a PortAllocator reachable through its public operations. -/
inductive ReachableAlloc : PortAllocator → Prop where
  | init : ReachableAlloc initAllocator
  | alloc (s : PortAllocator) (run_id : String) (a : ZMQPortAllocation) (s1 : PortAllocator) :
      ReachableAlloc s → allocate_ports s run_id = Except.ok (a, s1) → ReachableAlloc s1
  | release (s : PortAllocator) (run_id : String) :
      ReachableAlloc s → ReachableAlloc (release_ports s run_id)

/-! ## First-fit scan lemmas -/

theorem find?_range'_eq_some (p : Nat → Bool) (m : Nat) :
    ∀ (n a : Nat), a ≤ m → m < a + n →
    (∀ x, a ≤ x → x < m → p x = false) → p m = true →
    (List.range' a n).find? p = some m := by
  intro n
  induction n with
  | zero => intro a h1 h2 _ _; omega
  | succ k ih =>
    intro a h1 h2 hbef hm
    rw [List.range'_succ]
    rcases Nat.eq_or_lt_of_le h1 with heq | hlt
    · subst heq
      exact List.find?_cons_of_pos _ hm
    · rw [List.find?_cons_of_neg _ (by simp [hbef a (Nat.le_refl a) hlt])]
      exact ih (a + 1) hlt (by omega) (fun x hx1 hx2 => hbef x (by omega) hx2) hm

theorem find?_range'_eq_none (p : Nat → Bool) (a n : Nat)
    (h : ∀ x, a ≤ x → x < a + n → p x = false) :
    (List.range' a n).find? p = none := by
  rw [List.find?_eq_none]
  intro x hx
  rw [List.mem_range'_1] at hx
  simp [h x hx.1 hx.2]

theorem mem_foldl_insert (l : List Nat) :
    ∀ (s : Finset Nat) (p : Nat),
    p ∈ l.foldl (fun acc q => insert q acc) s ↔ p ∈ s ∨ p ∈ l := by
  induction l with
  | nil => simp
  | cons q rest ih =>
    intro s p
    simp only [List.foldl_cons, ih, Finset.mem_insert, List.mem_cons]
    tauto

theorem mem_foldl_erase (l : List Nat) :
    ∀ (s : Finset Nat) (p : Nat),
    p ∈ l.foldl (fun acc q => acc.erase q) s ↔ p ∈ s ∧ p ∉ l := by
  induction l with
  | nil => simp
  | cons q rest ih =>
    intro s p
    simp only [List.foldl_cons, ih, Finset.mem_erase, List.mem_cons]
    tauto

theorem mem_markBlock (alloc : Finset Nat) (base p : Nat) :
    p ∈ markBlock alloc base ↔ p ∈ alloc ∨ (base ≤ p ∧ p < base + PORTS_PER_RUN) := by
  rw [markBlock, mem_foldl_insert, List.mem_range'_1]

theorem blockFree_iff (alloc : Finset Nat) (base : Nat) :
    blockFree alloc base = true ↔
      ∀ p, base ≤ p → p < base + PORTS_PER_RUN → p ∉ alloc := by
  rw [blockFree, List.all_eq_true]
  constructor
  · intro h p h1 h2
    have := h p (by rw [List.mem_range'_1]; exact ⟨h1, h2⟩)
    simpa using this
  · intro h x hx
    rw [List.mem_range'_1] at hx
    simpa using h x hx.1 hx.2

theorem ports_mkZMQPortAllocation (base : Nat) :
    allocationPorts (mkZMQPortAllocation base) =
      [ base, base + 1, base + 2, base + 3, base + 4, base + 5, base + 6, base + 7, base + 8 ] := rfl

theorem mem_ports_mkZMQPortAllocation (base p : Nat) :
    p ∈ allocationPorts (mkZMQPortAllocation base) ↔ base ≤ p ∧ p < base + PORTS_PER_RUN := by
  rw [ports_mkZMQPortAllocation]
  simp only [List.mem_cons, List.mem_singleton, List.not_mem_nil, or_false, PORTS_PER_RUN]
  omega

/-! ## Allocate and release characterisation -/

theorem allocate_ports_ok (s : PortAllocator) (run_id : String)
    (a : ZMQPortAllocation) (s1 : PortAllocator)
    (h : allocate_ports s run_id = Except.ok (a, s1)) :
    ∃ base, find_available_block s.allocated_ports = some base ∧
      a = mkZMQPortAllocation base ∧
      s1.allocated_ports = markBlock s.allocated_ports base ∧
      s1.port_assignments = ainsert run_id (mkZMQPortAllocation base) s.port_assignments := by
  unfold allocate_ports at h
  cases hf : find_available_block s.allocated_ports with
  | none => rw [hf] at h; exact absurd h (by simp)
  | some base =>
    rw [hf] at h
    refine ⟨base, rfl, ?_, ?_, ?_⟩ <;>
      simp only [Except.ok.injEq, Prod.mk.injEq] at h
    · exact h.1.symm
    · rw [← h.2]
    · rw [← h.2]

theorem allocate_ports_error_iff (s : PortAllocator) (run_id : String) :
    allocate_ports s run_id = Except.error "No available ports in pool" ↔
      find_available_block s.allocated_ports = none := by
  unfold allocate_ports
  cases hf : find_available_block s.allocated_ports <;> simp

theorem find_available_block_some (alloc : Finset Nat) (base : Nat)
    (h : find_available_block alloc = some base) :
    blockFree alloc base = true := by
  exact List.find?_some h

theorem find_available_block_none_iff (alloc : Finset Nat) :
    find_available_block alloc = none ↔
      ∀ base, PORT_POOL_START ≤ base → base < PORT_POOL_END - PORTS_PER_RUN →
        blockFree alloc base = false := by
  unfold find_available_block
  rw [List.find?_eq_none]
  constructor
  · intro h base h1 h2
    have := h base (by rw [List.mem_range'_1]
                       exact ⟨h1, by simp only [PORT_POOL_START, PORT_POOL_END, PORTS_PER_RUN] at *; omega⟩)
    simpa using this
  · intro h x hx
    rw [List.mem_range'_1] at hx
    simp only [PORT_POOL_START, PORT_POOL_END, PORTS_PER_RUN] at *
    simp [h x hx.1 (by omega)]

theorem blockFree_false_of_mem (alloc : Finset Nat) (base p : Nat)
    (hp : p ∈ alloc) (h1 : base ≤ p) (h2 : p < base + PORTS_PER_RUN) :
    blockFree alloc base = false := by
  cases hb : blockFree alloc base with
  | false => rfl
  | true => exact absurd hp ((blockFree_iff alloc base).mp hb p h1 h2)

theorem alookup_aremove {α : Type} (k k' : String) (l : List (String × α)) :
    alookup k' (aremove k l) = if k' = k then none else alookup k' l := by
  induction l with
  | nil => simp [aremove, alookup]
  | cons kv rest ih =>
    by_cases hk : k = kv.1
    · rw [aremove, if_pos hk, ih, alookup]
      by_cases hk' : k' = k
      · simp [hk']
      · rw [if_neg hk', if_neg hk', if_neg (by rw [← hk]; exact hk')]
    · rw [aremove, if_neg hk, alookup, alookup]
      by_cases hk' : k' = kv.1
      · rw [if_pos hk', if_pos hk', if_neg (by rw [hk']; intro h; exact hk h.symm)]
      · rw [if_neg hk', if_neg hk', ih]

/-! ## Allocator invariant: live allocations are backed by the allocated
set and are pairwise disjoint -/

/-- Invariant on allocator states: every assigned port is marked
allocated, and two assignments for distinct runs share no port. -/
def PAInv (s : PortAllocator) : Prop :=
  (∀ rid a, alookup rid s.port_assignments = some a →
     ∀ p ∈ allocationPorts a, p ∈ s.allocated_ports) ∧
  (∀ r1 r2 a1 a2, r1 ≠ r2 →
     alookup r1 s.port_assignments = some a1 →
     alookup r2 s.port_assignments = some a2 →
     ∀ p, p ∈ allocationPorts a1 → p ∉ allocationPorts a2)

theorem painv_init : PAInv initAllocator := by
  constructor
  · intro rid a h; exact absurd h (by simp [initAllocator, alookup])
  · intro r1 r2 a1 a2 _ h; exact absurd h (by simp [initAllocator, alookup])

theorem painv_allocate (s : PortAllocator) (run_id : String)
    (a : ZMQPortAllocation) (s1 : PortAllocator)
    (hinv : PAInv s) (h : allocate_ports s run_id = Except.ok (a, s1)) :
    PAInv s1 := by
  obtain ⟨base, hfind, ha, halloc, hassign⟩ := allocate_ports_ok s run_id a s1 h
  have hfree := (blockFree_iff _ _).mp (find_available_block_some _ _ hfind)
  have hblock : ∀ p ∈ allocationPorts (mkZMQPortAllocation base), p ∉ s.allocated_ports := by
    intro p hp
    rw [mem_ports_mkZMQPortAllocation] at hp
    exact hfree p hp.1 hp.2
  have hlook : ∀ (r : String) (b : ZMQPortAllocation),
      alookup r s1.port_assignments = some b →
      (r = run_id ∧ b = mkZMQPortAllocation base) ∨
      (r ≠ run_id ∧ alookup r s.port_assignments = some b) := by
    intro r b hr
    rw [hassign] at hr
    by_cases hcase : r = run_id
    · subst hcase
      rw [alookup_ainsert_self] at hr
      exact Or.inl ⟨rfl, by injection hr with h1; exact h1.symm⟩
    · rw [alookup_ainsert_ne _ _ _ _ hcase] at hr
      exact Or.inr ⟨hcase, hr⟩
  constructor
  · intro rid b hb p hp
    rw [halloc, mem_markBlock]
    rcases hlook rid b hb with ⟨_, rfl⟩ | ⟨_, hold⟩
    · right
      exact (mem_ports_mkZMQPortAllocation base p).mp hp
    · left
      exact hinv.1 rid b hold p hp
  · intro r1 r2 b1 b2 hne h1 h2 p hp1
    rcases hlook r1 b1 h1 with ⟨hr1, rfl⟩ | ⟨hr1, hold1⟩ <;>
      rcases hlook r2 b2 h2 with ⟨hr2, rfl⟩ | ⟨hr2, hold2⟩
    · exact absurd (hr1.trans hr2.symm) hne
    · intro hp2
      exact hblock p hp1 (hinv.1 r2 b2 hold2 p hp2)
    · intro hp2
      exact hblock p hp2 (hinv.1 r1 b1 hold1 p hp1)
    · exact hinv.2 r1 r2 b1 b2 hne hold1 hold2 p hp1

theorem painv_release (s : PortAllocator) (run_id : String)
    (hinv : PAInv s) : PAInv (release_ports s run_id) := by
  unfold release_ports
  cases hr : alookup run_id s.port_assignments with
  | none => exact hinv
  | some a0 =>
    constructor
    · intro rid a hb p hp
      simp only [alookup_aremove] at hb
      by_cases hcase : rid = run_id
      · rw [if_pos hcase] at hb; exact absurd hb (by simp)
      · rw [if_neg hcase] at hb
        simp only [mem_foldl_erase]
        exact ⟨hinv.1 rid a hb p hp, hinv.2 rid run_id a a0 hcase hb hr p hp⟩
    · intro r1 r2 a1 a2 hne h1 h2 p hp1
      simp only [alookup_aremove] at h1 h2
      by_cases hc1 : r1 = run_id
      · rw [if_pos hc1] at h1; exact absurd h1 (by simp)
      · by_cases hc2 : r2 = run_id
        · rw [if_pos hc2] at h2; exact absurd h2 (by simp)
        · rw [if_neg hc1] at h1
          rw [if_neg hc2] at h2
          exact hinv.2 r1 r2 a1 a2 hne h1 h2 p hp1

theorem painv_reachable (s : PortAllocator) (h : ReachableAlloc s) : PAInv s := by
  induction h with
  | init => exact painv_init
  | alloc s rid a s1 _ hok ih => exact painv_allocate s rid a s1 ih hok
  | release s rid _ ih => exact painv_release s rid ih

/-! ## The pool fills after 110 straight allocations -/

/-- Allocator state after k successive allocate_ports calls with fresh
run identifiers, starting from the initial state. -/
def allocN : Nat → PortAllocator
  | 0 => initAllocator
  | k + 1 => allocStep (allocN k) (toString k)

theorem find_available_block_Ico (m : Nat) (h1 : 6000 ≤ m) (h2 : m ≤ 6989) :
    find_available_block (Finset.Ico 6000 m) = some m := by
  have e : find_available_block (Finset.Ico 6000 m)
      = (List.range' 6000 990).find? (fun base => blockFree (Finset.Ico 6000 m) base) := rfl
  rw [e]
  apply find?_range'_eq_some _ m 990 6000 h1 (by omega)
  · intro x hx1 hx2
    exact blockFree_false_of_mem _ x x (Finset.mem_Ico.mpr ⟨hx1, hx2⟩) le_rfl
      (by simp [PORTS_PER_RUN])
  · rw [blockFree_iff]
    intro p hp _
    rw [Finset.mem_Ico]
    omega

theorem markBlock_Ico (m : Nat) (h : 6000 ≤ m) :
    markBlock (Finset.Ico 6000 m) m = Finset.Ico 6000 (m + 9) := by
  ext p
  rw [mem_markBlock]
  simp only [Finset.mem_Ico, PORTS_PER_RUN]
  omega

theorem allocN_allocated : ∀ k, k ≤ 110 →
    (allocN k).allocated_ports = Finset.Ico 6000 (6000 + 9 * k) := by
  intro k
  induction k with
  | zero =>
    intro _
    show (∅ : Finset Nat) = _
    rw [Nat.mul_zero, Nat.add_zero, Finset.Ico_self]
  | succ n ih =>
    intro h
    have hn := ih (by omega)
    have hfind : find_available_block (allocN n).allocated_ports = some (6000 + 9 * n) := by
      rw [hn]
      exact find_available_block_Ico _ (by omega) (by omega)
    have hok : allocate_ports (allocN n) (toString n)
        = Except.ok (mkZMQPortAllocation (6000 + 9 * n),
            { allocated_ports := markBlock (allocN n).allocated_ports (6000 + 9 * n)
              port_assignments := ainsert (toString n) (mkZMQPortAllocation (6000 + 9 * n))
                (allocN n).port_assignments }) := by
      unfold allocate_ports
      rw [hfind]
    show (allocStep (allocN n) (toString n)).allocated_ports = _
    unfold allocStep
    rw [hok]
    show markBlock (allocN n).allocated_ports (6000 + 9 * n) = _
    rw [hn, markBlock_Ico _ (by omega),
      show 6000 + 9 * n + 9 = 6000 + 9 * (n + 1) from by omega]

theorem allocN110_allocated : (allocN 110).allocated_ports = Finset.Ico 6000 6990 := by
  have := allocN_allocated 110 (le_refl _)
  norm_num at this
  exact this

/-! ## Process supervisor (services/aiperf_executor.py) -/

/-- Python string slicing s[:n], used to truncate the error excerpt. -/
def truncatePy (s : String) (n : Nat) : String :=
  (s.toList.take n).asString

/-- Error text computed by the monitor for a nonzero exit code
(aiperf_executor.py lines 142-144): the captured standard-error stream
truncated to 1000 characters when that stream is non-empty, else an
exit-code message. Bytes truthiness in Python is non-emptiness. -/
def monitorErrorMsg (exit_code : Int) (stderr : String) : String :=
  if stderr = "" then "Exit code: " ++ toString exit_code
  else truncatePy stderr 1000

/-- Database write performed by the monitor once the process has exited
(aiperf_executor.py lines 136-149): COMPLETED with no error argument on
exit code zero, FAILED with the computed error text otherwise. -/
def monitorStatusUpdate (db : InMemoryDatabase) (run_id : String)
    (exit_code : Int) (stderr : String) (now : Nat) : InMemoryDatabase :=
  if exit_code = 0 then
    update_profile_status db run_id ProfileStatus.completed none now
  else
    update_profile_status db run_id ProfileStatus.failed
      (some (monitorErrorMsg exit_code stderr)) now

/-- Database write performed by stop_run after it has terminated and
reaped the tracked process (aiperf_executor.py lines 106-109): the run
is marked CANCELLED unconditionally. -/
def stopRunStatusUpdate (db : InMemoryDatabase) (run_id : String) (now : Nat) :
    InMemoryDatabase :=
  update_profile_status db run_id ProfileStatus.cancelled none now

/-- Outcome of the awaits inside _monitor_process: either the process
exited and its streams were drained, or one of the awaited calls raised
(the except branch at aiperf_executor.py lines 158-164). -/
inductive MonitorOutcome where
  | exited (exit_code : Int) (stdout stderr : String)
  | internalError (msg : String)

/-- Observable result of one _monitor_process execution. -/
structure MonitorResult where
  db : InMemoryDatabase
  callbackInvocations : Nat
  callbackExceptionPropagated : Bool

/-- Control flow of AIPerfExecutor._monitor_process (aiperf_executor.py
lines 114-171). On a normal exit the status is classified and the
completion callback, when supplied, is invoked inside its own
try-except, so a callback exception is logged and never propagated.
When an awaited call raises, the except branch marks the run FAILED
with the exception text and the callback is never reached. -/
def monitor_process (db : InMemoryDatabase) (run_id : String)
    (outcome : MonitorOutcome) (hasCallback : Bool) (callbackRaises : Bool)
    (now : Nat) : MonitorResult :=
  match outcome with
  | .exited exit_code _ stderr =>
    { db := monitorStatusUpdate db run_id exit_code stderr now
      callbackInvocations := if hasCallback then 1 else 0
      callbackExceptionPropagated := false }
  | .internalError msg =>
    { db := update_profile_status db run_id ProfileStatus.failed (some msg) now
      callbackInvocations := 0
      callbackExceptionPropagated := false }

/-! ## Run controller (services/profile_controller.py) -/

/-- Externally visible calls made while executing one dequeued run,
reified as trace events. The allocator events exist to state their
absence: the allocator calls in the controller are commented out. -/
inductive ControllerEvent where
  | fetch (run_id : String)
  | profileMissing (run_id : String)
  | allocatePortsCall (run_id : String)
  | subscribeCall (run_id host : String) (port : Nat)
  | startRunCall (run_id : String) (port : Nat)
  | pollUntilTerminal (run_id : String)
  | markFailed (run_id err : String)
  | unsubscribeCall (run_id : String)
  | releasePortsCall (run_id : String)
deriving DecidableEq

/-- Translation of ProfileController._cleanup_profile (lines 219-233):
it unsubscribes the metrics subscriber; the release_ports call is
commented out in the source, so no allocator event is emitted. -/
def cleanup_profile (run_id : String) : List ControllerEvent :=
  [ ControllerEvent.unsubscribeCall run_id ]

/-- Translation of ProfileController._execute_profile (lines 142-217).
The two awaited sub-steps that can raise are parametrised by the text
of the exception they raise, if any: subscribeErr for
subscriber.subscribe_to_run and startErr for executor.start_run. The
port allocator calls are commented out in the source; the port is the
fixed literal 5664. On a raised exception the except branch marks the
run FAILED with the exception text and runs _cleanup_profile inline.
On the successful path the executor has set the run RUNNING, the
controller polls the stored status, and cleanup is left to the task
scheduled from the completion callback. A start_run launch failure
writes FAILED once inside the executor before re-raising and once more
in the controller except branch. -/
def execute_profile (db : InMemoryDatabase) (run_id : String)
    (subscribeErr startErr : Option String) (now : Nat) :
    InMemoryDatabase × List ControllerEvent :=
  match alookup run_id db.profiles with
  | none => (db, [ ControllerEvent.fetch run_id, ControllerEvent.profileMissing run_id ])
  | some _ =>
    match subscribeErr with
    | some e =>
      (update_profile_status db run_id ProfileStatus.failed (some e) now,
       [ ControllerEvent.fetch run_id,
         ControllerEvent.subscribeCall run_id "127.0.0.1" 5664,
         ControllerEvent.markFailed run_id e ] ++ cleanup_profile run_id)
    | none =>
      match startErr with
      | some e =>
        (update_profile_status
           (update_profile_status db run_id ProfileStatus.failed (some e) now)
           run_id ProfileStatus.failed (some e) now,
         [ ControllerEvent.fetch run_id,
           ControllerEvent.subscribeCall run_id "127.0.0.1" 5664,
           ControllerEvent.startRunCall run_id 5664,
           ControllerEvent.markFailed run_id e ] ++ cleanup_profile run_id)
      | none =>
        (update_profile_status db run_id ProfileStatus.running none now,
         [ ControllerEvent.fetch run_id,
           ControllerEvent.subscribeCall run_id "127.0.0.1" 5664,
           ControllerEvent.startRunCall run_id 5664,
           ControllerEvent.pollUntilTerminal run_id ])

/-- One queued run together with the failure behaviour of its two
fallible launch steps. -/
structure QueueItem where
  run_id : String
  subscribeErr : Option String
  startErr : Option String

/-- Translation of the worker loop ProfileController._process_queue
(lines 109-140) over the items dequeued during the modelled window,
with the running flag fixed for that window: the flag is only re-read
at loop boundaries and only stop flips it. When the flag is false the
loop body is never entered; otherwise every dequeued item is executed
and any exception is caught inside the loop, so the count of processed
items equals the number dequeued. -/
def process_queue (db : InMemoryDatabase) (running : Bool)
    (items : List QueueItem) (now : Nat) : InMemoryDatabase × Nat :=
  if running then
    items.foldl
      (fun acc it => ((execute_profile acc.1 it.run_id it.subscribeErr it.startErr now).1, acc.2 + 1))
      (db, 0)
  else (db, 0)

/-- Queue and lifecycle state of a ProfileController instance. The
queues map each queue name to its pending run identifiers in FIFO
order; queue_tasks lists the queue names that have a worker task. -/
structure ControllerState where
  db : InMemoryDatabase
  queues : List (String × List String)
  queue_tasks : List String
  running : Bool

/-- Controller state built by the ProfileController constructor. -/
def initControllerState : ControllerState := ⟨emptyDB, [], [], false⟩

/-- Translation of ProfileController.start (lines 39-45). -/
def controller_start (s : ControllerState) : ControllerState :=
  if s.running then s else { s with running := true }

/-- Translation of ProfileController.stop (lines 47-68) restricted to
the state read by submissions and worker loops: the running flag is
cleared. The cancellation of worker tasks and the executor and
subscriber teardown act on the other components. The queue_tasks
mapping is not cleared by the source. -/
def controller_stop (s : ControllerState) : ControllerState :=
  if s.running = false then s else { s with running := false }

/-- Translation of ProfileController.submit_profile (lines 70-107).
The generated run identifier and the current time are passed in
explicitly. A profile record is created in PENDING, persisted, appended
to the queue of its lane, and a worker task is registered for new queue
names; the record is returned. No check of the running flag appears in
the source. -/
def submit_profile (s : ControllerState) (queue_name : String)
    (config : Config) (new_run_id : String) (now : Nat) :
    ProfileRecord × ControllerState :=
  let profile : ProfileRecord :=
    { run_id := new_run_id, queue_name := queue_name, config := config,
      status := ProfileStatus.pending, created_at := now,
      started_at := none, completed_at := none, error := none }
  let db1 := create_profile s.db profile
  let queues1 := ainsert queue_name ((alookup queue_name s.queues).getD [] ++ [ new_run_id ]) s.queues
  let tasks1 := if queue_name ∈ s.queue_tasks then s.queue_tasks else queue_name :: s.queue_tasks
  (profile, { s with db := db1, queues := queues1, queue_tasks := tasks1 })

/-! ## Metrics subscriber (services/metrics_subscriber.py) -/

/-- One two-part ZMQ message as received by recv_multipart: a topic
frame, already decoded to text, and an opaque payload frame. -/
structure RawMessage (P : Type) where
  topic : String
  payload : P

/-- One iteration outcome of the receive call in the ingestion loop:
either a message arrived or the receive timed out (zmq.Again). -/
inductive RecvEvent (P : Type) where
  | msg (m : RawMessage P)
  | again

/-- Python str.rstrip with the single character dollar: removes every
trailing dollar sign (metrics_subscriber.py line 124). -/
def rstripDollar (s : String) : String :=
  ((s.toList.reverse.dropWhile (fun c => c = '$')).reverse).asString

/-- Body of one iteration of MetricsSubscriber._subscribe_loop
(lines 117-145). A timeout continues the loop. For a message, the
payload is parsed by json.loads, modelled by the parse parameter; a
parse failure is caught by the per-iteration except branch, logged and
skipped, leaving the store untouched; on success a MetricRecord is
built with the dollar-stripped topic and appended to the store. -/
def processRecvEvent {P : Type} (parse : P → Option MetricData)
    (run_id : String) (now : Nat) (db : InMemoryDatabase) (ev : RecvEvent P) :
    InMemoryDatabase :=
  match ev with
  | .again => db
  | .msg m =>
    match parse m.payload with
    | none => db
    | some d => add_metric db ⟨run_id, rstripDollar m.topic, d, now⟩

/-- The ingestion loop of MetricsSubscriber._subscribe_loop over the
sequence of receive outcomes observed before the stop signal. -/
def subscribe_loop {P : Type} (parse : P → Option MetricData)
    (db : InMemoryDatabase) (run_id : String) (events : List (RecvEvent P))
    (now : Nat) : InMemoryDatabase :=
  events.foldl (processRecvEvent parse run_id now) db

/-! ## String helpers -/

theorem string_ext (s t : String) (h : s.data = t.data) : s = t := by
  cases s
  cases t
  simp_all

theorem truncatePy_ne_empty (s : String) (n : Nat) (hs : s ≠ "") (hn : 0 < n) :
    truncatePy s n ≠ "" := by
  intro h
  apply hs
  apply string_ext
  show s.data = []
  have hd : s.data.take n = [] := by
    have e : (truncatePy s n).data = s.data.take n := rfl
    rw [h] at e
    exact e.symm
  cases hsd : s.data with
  | nil => rfl
  | cons c cs =>
    rw [hsd] at hd
    cases n with
    | zero => exact absurd hn (by omega)
    | succ k => simp at hd

theorem append_ne_empty_left (s t : String) (hs : s ≠ "") : s ++ t ≠ "" := by
  intro h
  apply hs
  apply string_ext
  show s.data = []
  have e : (s ++ t).data = s.data ++ t.data := rfl
  rw [h] at e
  exact (List.append_eq_nil.mp e.symm).1

theorem monitorErrorMsg_ne_empty (exit_code : Int) (stderr : String) :
    monitorErrorMsg exit_code stderr ≠ "" := by
  unfold monitorErrorMsg
  split_ifs with h
  · exact append_ne_empty_left _ _ (by decide)
  · exact truncatePy_ne_empty _ _ h (by omega)

/-! ## Characterisation of update_profile_status -/

theorem update_profile_status_absent (db : InMemoryDatabase) (run_id : String)
    (status : ProfileStatus) (error : Option String) (now : Nat)
    (h : alookup run_id db.profiles = none) :
    update_profile_status db run_id status error now = db := by
  unfold update_profile_status
  rw [h]

theorem update_profile_status_present (db : InMemoryDatabase) (run_id : String)
    (status : ProfileStatus) (error : Option String) (now : Nat) (p : ProfileRecord)
    (h : alookup run_id db.profiles = some p) :
    ∃ q, alookup run_id (update_profile_status db run_id status error now).profiles = some q ∧
      q.status = status ∧
      q.started_at = (if status = ProfileStatus.running ∧ p.started_at = none
                      then some now else p.started_at) ∧
      q.completed_at = (if isTerminal status then some now else p.completed_at) ∧
      q.error = (match error with
                 | none => p.error
                 | some e => if e = "" then p.error else some e) ∧
      q.run_id = p.run_id ∧ q.queue_name = p.queue_name ∧
      q.config = p.config ∧ q.created_at = p.created_at := by
  unfold update_profile_status
  rw [h]
  refine ⟨_, alookup_ainsert_self _ _ _, ?_, ?_, ?_, ?_, ?_, ?_, ?_, ?_⟩ <;>
    cases error <;> dsimp only <;> split_ifs <;> rfl

/-! ## Claim C10 -/

/-- C10: update_profile_status on an absent run_id is a silent no-op
that leaves the whole store unchanged; on a present run_id the new
status is stored, started_at is set to now exactly when the new status
is RUNNING and started_at was unset, and a call passing no error text
leaves the stored error text unchanged. -/
theorem C10_update_profile_status_semantics (db : InMemoryDatabase) (run_id : String)
    (status : ProfileStatus) (error : Option String) (now : Nat) :
    (alookup run_id db.profiles = none →
       update_profile_status db run_id status error now = db) ∧
    (∀ p, alookup run_id db.profiles = some p →
       ∃ q, alookup run_id (update_profile_status db run_id status error now).profiles = some q ∧
         q.status = status ∧
         q.started_at = (if status = ProfileStatus.running ∧ p.started_at = none
                         then some now else p.started_at) ∧
         (error = none → q.error = p.error)) := by
  constructor
  · intro h
    exact update_profile_status_absent db run_id status error now h
  · intro p hp
    obtain ⟨q, hq, h1, h2, _, herr, _⟩ := update_profile_status_present db run_id status error now p hp
    refine ⟨q, hq, h1, h2, ?_⟩
    intro he
    rw [he] at herr
    exact herr

/-- C10 witness profile store: one profile r in PENDING with no
started_at and no error. -/
def dbC10 : InMemoryDatabase :=
  create_profile emptyDB
    { run_id := "r", queue_name := "q", config := [], status := ProfileStatus.pending,
      created_at := 0, started_at := none, completed_at := none, error := none }

/-- C10 witness: the theorem applied at a store where x is absent and
at a store where r is present and moves to RUNNING at time 5. -/
theorem C10_witness :
    (update_profile_status emptyDB "x" ProfileStatus.running none 5 = emptyDB) ∧
    (∃ q, alookup "r" (update_profile_status dbC10 "r" ProfileStatus.running none 5).profiles = some q ∧
       q.status = ProfileStatus.running ∧
       q.started_at = some 5 ∧
       (none = (none : Option String) → q.error = none)) :=
  ⟨(C10_update_profile_status_semantics emptyDB "x" ProfileStatus.running none 5).1 rfl,
   (C10_update_profile_status_semantics dbC10 "r" ProfileStatus.running none 5).2 _ rfl⟩

/-! ## Claim C5 -/

/-- C5: when the supervised process exits, the monitor classifies the
result: exit code 0 stores COMPLETED and writes no error text; any
nonzero exit code stores FAILED with a non-empty error text, equal to
the captured standard-error stream truncated to 1000 characters when
that stream is non-empty, and to an exit-code message otherwise. -/
theorem C5_exit_code_classification (db : InMemoryDatabase) (run_id : String)
    (p : ProfileRecord) (exit_code : Int) (stderr : String) (now : Nat)
    (h : alookup run_id db.profiles = some p) :
    (exit_code = 0 → ∃ q,
       alookup run_id (monitorStatusUpdate db run_id exit_code stderr now).profiles = some q ∧
       q.status = ProfileStatus.completed ∧ q.error = p.error) ∧
    (exit_code ≠ 0 → ∃ q,
       alookup run_id (monitorStatusUpdate db run_id exit_code stderr now).profiles = some q ∧
       q.status = ProfileStatus.failed ∧
       q.error = some (monitorErrorMsg exit_code stderr) ∧
       monitorErrorMsg exit_code stderr ≠ "" ∧
       (stderr ≠ "" → monitorErrorMsg exit_code stderr = truncatePy stderr 1000) ∧
       (stderr = "" → monitorErrorMsg exit_code stderr = "Exit code: " ++ toString exit_code)) := by
  constructor
  · intro hz
    unfold monitorStatusUpdate
    rw [if_pos hz]
    obtain ⟨q, hq, h1, _, _, herr, _⟩ :=
      update_profile_status_present db run_id ProfileStatus.completed none now p h
    exact ⟨q, hq, h1, herr⟩
  · intro hnz
    unfold monitorStatusUpdate
    rw [if_neg hnz]
    obtain ⟨q, hq, h1, _, _, herr, _⟩ :=
      update_profile_status_present db run_id ProfileStatus.failed
        (some (monitorErrorMsg exit_code stderr)) now p h
    dsimp only at herr
    rw [if_neg (monitorErrorMsg_ne_empty exit_code stderr)] at herr
    refine ⟨q, hq, h1, herr, monitorErrorMsg_ne_empty exit_code stderr, ?_, ?_⟩
    · intro hs
      unfold monitorErrorMsg
      rw [if_neg hs]
    · intro hs
      unfold monitorErrorMsg
      rw [if_pos hs]

/-- C5 witness profile store: one profile r in RUNNING, as written by
the executor after a successful launch. -/
def dbC5 : InMemoryDatabase :=
  update_profile_status
    (create_profile emptyDB
      { run_id := "r", queue_name := "q", config := [], status := ProfileStatus.pending,
        created_at := 0, started_at := none, completed_at := none, error := none })
    "r" ProfileStatus.running none 1

/-- C5 witness: the theorem applied to a run exiting with code 1 and a
non-empty standard-error stream. -/
theorem C5_witness :
    ∃ q, alookup "r" (monitorStatusUpdate dbC5 "r" 1 "boom" 5).profiles = some q ∧
      q.status = ProfileStatus.failed ∧
      q.error = some (monitorErrorMsg 1 "boom") ∧
      monitorErrorMsg 1 "boom" ≠ "" ∧
      ("boom" ≠ "" → monitorErrorMsg 1 "boom" = truncatePy "boom" 1000) ∧
      ("boom" = "" → monitorErrorMsg 1 "boom" = "Exit code: " ++ toString (1 : Int)) :=
  (C5_exit_code_classification dbC5 "r" _ 1 "boom" 5 rfl).2 (by decide)

/-! ## Claim C1 -/

/-- C1 failing-input store: one profile r, created in PENDING and moved
to RUNNING by the executor at time 1. -/
def dbC1 : InMemoryDatabase :=
  update_profile_status
    (create_profile emptyDB
      { run_id := "r", queue_name := "q", config := [], status := ProfileStatus.pending,
        created_at := 0, started_at := none, completed_at := none, error := none })
    "r" ProfileStatus.running none 1

/-- C1: the claim says a stored terminal status is never changed by any
later operation, in particular not by the stop_run and monitor
interleaving. The code has no transition guard in
update_profile_status, and in the reachable cancellation interleaving
in which stop_run terminates the process and writes CANCELLED, after
which the monitor resumes from its wait with the termination exit code
-15 and an empty standard-error stream and writes FAILED, the terminal
CANCELLED is replaced by FAILED. This theorem evaluates the embedded
database writes of the two tasks at that failing input. -/
theorem C1_terminal_status_overwritten :
    ((alookup "r" (stopRunStatusUpdate dbC1 "r" 10).profiles).map ProfileRecord.status
        = some ProfileStatus.cancelled) ∧
    ((alookup "r" (monitorStatusUpdate (stopRunStatusUpdate dbC1 "r" 10)
          "r" (-15) "" 11).profiles).map ProfileRecord.status
        = some ProfileStatus.failed) := by
  constructor <;> rfl

/-! ## Claim C2 -/

/-- C2 counterexample: after 110 straight allocations the allocated set
is exactly the ports 6000 to 6989, so the block of nine consecutive
ports starting at 6990 is entirely unallocated and lies entirely inside
the pool, yet allocate_ports raises the capacity error: the scan stops
at base 6989 and never considers base 6990. This refutes the claimed
equivalence in both directions stated as an implication: a free block
of size 9 exists in the pool and allocation still fails. -/
theorem C2_counterexample :
    PORT_POOL_START ≤ 6990 ∧
    6990 + PORTS_PER_RUN ≤ PORT_POOL_END ∧
    blockFree (allocN 110).allocated_ports 6990 = true ∧
    allocate_ports (allocN 110) "next" = Except.error "No available ports in pool" := by
  refine ⟨by decide, by decide, ?_, ?_⟩
  · rw [allocN110_allocated, blockFree_iff]
    intro p hp _
    simp only [Finset.mem_Ico]
    omega
  · rw [allocate_ports_error_iff, allocN110_allocated, find_available_block_none_iff]
    intro base h1 h2
    refine blockFree_false_of_mem _ base base ?_ le_rfl (by simp [PORTS_PER_RUN])
    rw [Finset.mem_Ico]
    refine ⟨h1, ?_⟩
    simpa [PORT_POOL_END, PORTS_PER_RUN] using h2

/-- C2 amended: allocate_ports raises the capacity error if and only if
no block of PORTS_PER_RUN consecutive unallocated ports exists whose
base lies in the scanned range from PORT_POOL_START inclusive to
PORT_POOL_END minus PORTS_PER_RUN exclusive; blocks based in the last
positions of the pool are never considered. Whenever a block with a
scanned base exists, allocation succeeds and the returned allocation is
such a block. -/
theorem C2_allocate_capacity_error_iff (s : PortAllocator) (run_id : String) :
    (allocate_ports s run_id = Except.error "No available ports in pool" ↔
       ¬ ∃ base, PORT_POOL_START ≤ base ∧ base < PORT_POOL_END - PORTS_PER_RUN ∧
         ∀ p, base ≤ p → p < base + PORTS_PER_RUN → p ∉ s.allocated_ports) ∧
    (∀ a s1, allocate_ports s run_id = Except.ok (a, s1) →
       ∃ base, PORT_POOL_START ≤ base ∧ base < PORT_POOL_END - PORTS_PER_RUN ∧
         a = mkZMQPortAllocation base ∧
         ∀ p, base ≤ p → p < base + PORTS_PER_RUN → p ∉ s.allocated_ports) := by
  constructor
  · rw [allocate_ports_error_iff, find_available_block_none_iff]
    constructor
    · rintro h ⟨base, hb1, hb2, hfree⟩
      have ht : blockFree s.allocated_ports base = true := (blockFree_iff _ _).mpr hfree
      rw [h base hb1 hb2] at ht
      exact absurd ht (by simp)
    · intro h base hb1 hb2
      cases hbf : blockFree s.allocated_ports base with
      | false => rfl
      | true => exact absurd ⟨base, hb1, hb2, (blockFree_iff _ _).mp hbf⟩ h
  · intro a s1 h
    obtain ⟨base, hfind, ha, _, _⟩ := allocate_ports_ok s run_id a s1 h
    have hmem : base ∈ List.range' PORT_POOL_START (PORT_POOL_END - PORTS_PER_RUN - PORT_POOL_START) :=
      List.mem_of_find?_eq_some hfind
    rw [List.mem_range'_1] at hmem
    refine ⟨base, hmem.1, ?_, ha, (blockFree_iff _ _).mp (find_available_block_some _ _ hfind)⟩
    have : PORT_POOL_START + (PORT_POOL_END - PORTS_PER_RUN - PORT_POOL_START)
        = PORT_POOL_END - PORTS_PER_RUN := by decide
    rw [this] at hmem
    exact hmem.2

/-- C2 witness: the success half of the amended theorem applied to the
empty allocator, which hands out the block based at 6000. -/
theorem C2_witness :
    ∃ base, PORT_POOL_START ≤ base ∧ base < PORT_POOL_END - PORTS_PER_RUN ∧
      mkZMQPortAllocation 6000 = mkZMQPortAllocation base ∧
      ∀ p, base ≤ p → p < base + PORTS_PER_RUN → p ∉ initAllocator.allocated_ports :=
  (C2_allocate_capacity_error_iff initAllocator "A").2
    (mkZMQPortAllocation 6000) (allocStep initAllocator "A") rfl

/-! ## Claim C3 -/

/-- C3: in every allocator state reachable through allocate_ports and
release_ports, the allocations held by two distinct live runs share no
port number, and after releasing the allocation of run A a subsequent
allocation for run C may be assigned the very numbers A held: from the
initial state, A receives the block at 6000, and after releasing A the
next allocation for C receives that same block. -/
theorem C3_live_allocations_disjoint :
    (∀ s, ReachableAlloc s → ∀ r1 r2 a1 a2, r1 ≠ r2 →
       alookup r1 s.port_assignments = some a1 →
       alookup r2 s.port_assignments = some a2 →
       ∀ p, p ∈ allocationPorts a1 → p ∉ allocationPorts a2) ∧
    (allocResultOf initAllocator "A" = some (mkZMQPortAllocation 6000) ∧
     allocResultOf (release_ports (allocStep initAllocator "A") "A") "C"
        = some (mkZMQPortAllocation 6000)) := by
  refine ⟨?_, rfl, rfl⟩
  intro s hs
  exact (painv_reachable s hs).2

/-- C3 witness: the disjointness half applied to the concrete reachable
state in which A holds the block at 6000 and B the block at 6009; port
6000 of A is then not among the ports of B. -/
theorem C3_witness :
    alookup "A" (allocStep (allocStep initAllocator "A") "B").port_assignments
        = some (mkZMQPortAllocation 6000) ∧
    alookup "B" (allocStep (allocStep initAllocator "A") "B").port_assignments
        = some (mkZMQPortAllocation 6009) ∧
    6000 ∉ allocationPorts (mkZMQPortAllocation 6009) :=
  ⟨rfl, rfl,
    C3_live_allocations_disjoint.1 (allocStep (allocStep initAllocator "A") "B")
      (ReachableAlloc.alloc (allocStep initAllocator "A") "B" (mkZMQPortAllocation 6009)
        (allocStep (allocStep initAllocator "A") "B")
        (ReachableAlloc.alloc initAllocator "A" (mkZMQPortAllocation 6000)
          (allocStep initAllocator "A") ReachableAlloc.init rfl)
        rfl)
      "A" "B" (mkZMQPortAllocation 6000) (mkZMQPortAllocation 6009)
      (by decide) rfl rfl 6000 (by decide)⟩

/-! ## Claim C4 -/

/-- C4 counterexample state: a controller that has been started and
then stopped. -/
def csStopped : ControllerState := controller_stop (controller_start initControllerState)

/-- C4 counterexample: after stop, a submission is not rejected; the
code has no check of the running flag in submit_profile, so the call
still returns a PENDING run, persists its record in the store and
appends its identifier to the lane queue, contrary to the claim that it
creates no record, enqueues nothing and surfaces an error. -/
theorem C4_counterexample :
    ((submit_profile csStopped "q" [] "r1" 3).1.status = ProfileStatus.pending) ∧
    (alookup "r1" (submit_profile csStopped "q" [] "r1" 3).2.db.profiles
        = some (submit_profile csStopped "q" [] "r1" 3).1) ∧
    (alookup "q" (submit_profile csStopped "q" [] "r1" 3).2.queues = some [ "r1" ]) := by
  refine ⟨rfl, rfl, rfl⟩

/-- C4 amended: submissions after stop are not rejected. After stop the
running flag is false, yet submit_profile behaves exactly as before
stop: it returns a PENDING record, persists it and appends the run
identifier to its lane queue, and no error is surfaced; the run is
merely never executed, because a worker loop whose running flag is
false processes no queued item. -/
theorem C4_submit_after_stop (s : ControllerState) (queue_name : String)
    (config : Config) (new_run_id : String) (now : Nat)
    (db : InMemoryDatabase) (items : List QueueItem) (tnow : Nat) :
    ((submit_profile (controller_stop s) queue_name config new_run_id now).1.status
        = ProfileStatus.pending) ∧
    (alookup new_run_id
        (submit_profile (controller_stop s) queue_name config new_run_id now).2.db.profiles
        = some (submit_profile (controller_stop s) queue_name config new_run_id now).1) ∧
    (new_run_id ∈ ((alookup queue_name
        (submit_profile (controller_stop s) queue_name config new_run_id now).2.queues).getD [])) ∧
    ((controller_stop s).running = false) ∧
    (process_queue db false items tnow = (db, 0)) := by
  refine ⟨rfl, ?_, ?_, ?_, rfl⟩
  · exact alookup_ainsert_self _ _ _
  · show new_run_id ∈ (alookup queue_name (ainsert queue_name _ _)).getD []
    rw [alookup_ainsert_self]
    simp
  · unfold controller_stop
    split_ifs with h
    · exact h
    · simp

/-! ## Claim C6 -/

/-- C6 store for the monitor counterexample: one profile r in RUNNING. -/
def dbC6 : InMemoryDatabase :=
  update_profile_status
    (create_profile emptyDB
      { run_id := "r", queue_name := "q", config := [], status := ProfileStatus.pending,
        created_at := 0, started_at := none, completed_at := none, error := none })
    "r" ProfileStatus.running none 1

/-- C6 counterexample: the claim says the completion callback is
invoked exactly once on every path, including when the monitor itself
hits an internal error. In the source the callback call sits inside the
try block after the status update, so when an awaited call raises, the
except branch runs and the callback is never reached: with a callback
supplied and an internal error, the number of invocations is zero. -/
theorem C6_counterexample :
    (monitor_process dbC6 "r" (MonitorOutcome.internalError "boom") true false 5).callbackInvocations
      = 0 := rfl

/-- C6 amended: on every process-exit path (completion, failure, and
cancellation, which the monitor observes as an exit) the callback, when
supplied, is invoked exactly once, and an exception raised by the
callback is caught and never propagated out of the monitor; but when
the monitor itself hits an internal error before reaching the callback,
the callback is not invoked at all. -/
theorem C6_callback_invocation (db : InMemoryDatabase) (run_id : String)
    (exit_code : Int) (stdout stderr msg : String) (callbackRaises : Bool) (now : Nat) :
    ((monitor_process db run_id (MonitorOutcome.exited exit_code stdout stderr)
        true callbackRaises now).callbackInvocations = 1) ∧
    ((monitor_process db run_id (MonitorOutcome.exited exit_code stdout stderr)
        true callbackRaises now).callbackExceptionPropagated = false) ∧
    ((monitor_process db run_id (MonitorOutcome.internalError msg)
        true callbackRaises now).callbackInvocations = 0) ∧
    ((monitor_process db run_id (MonitorOutcome.internalError msg)
        true callbackRaises now).callbackExceptionPropagated = false) :=
  ⟨rfl, rfl, rfl, rfl⟩

/-! ## Claim C7 -/

/-- C7 store: one profile r in PENDING, as fetched by the worker. -/
def dbC7 : InMemoryDatabase :=
  create_profile emptyDB
    { run_id := "r", queue_name := "q", config := [], status := ProfileStatus.pending,
      created_at := 0, started_at := none, completed_at := none, error := none }

/-- C7 counterexample: the claim says the controller allocates a
resource block from the allocator before starting the subscriber and
releases it afterwards. In the source both allocator calls are
commented out: executing a run that proceeds without exception performs
fetch, subscribe at the fixed endpoint 5664, start, and poll, and the
trace contains no allocator call at all. -/
theorem C7_counterexample :
    ((execute_profile dbC7 "r" none none 3).2
        = [ ControllerEvent.fetch "r",
            ControllerEvent.subscribeCall "r" "127.0.0.1" 5664,
            ControllerEvent.startRunCall "r" 5664,
            ControllerEvent.pollUntilTerminal "r" ]) ∧
    (ControllerEvent.allocatePortsCall "r" ∉ (execute_profile dbC7 "r" none none 3).2) ∧
    (ControllerEvent.releasePortsCall "r" ∉ (execute_profile dbC7 "r" none none 3).2) ∧
    (ControllerEvent.releasePortsCall "r" ∉ cleanup_profile "r") := by
  refine ⟨rfl, by decide, by decide, by decide⟩

/-- C7 amended: executing one dequeued run, the controller fetches the
run from the store, uses the fixed endpoint 5664 without consulting the
allocator, starts the metric subscriber on 127.0.0.1 at that endpoint,
starts the process supervisor with it, and polls the stored status
until it is terminal; the subscriber detach happens in the separately
scheduled cleanup task triggered by the completion callback, which
releases no allocator resources because none were allocated. -/
theorem C7_execute_sequence (db : InMemoryDatabase) (run_id : String)
    (p : ProfileRecord) (now : Nat) (h : alookup run_id db.profiles = some p) :
    (execute_profile db run_id none none now
        = (update_profile_status db run_id ProfileStatus.running none now,
           [ ControllerEvent.fetch run_id,
             ControllerEvent.subscribeCall run_id "127.0.0.1" 5664,
             ControllerEvent.startRunCall run_id 5664,
             ControllerEvent.pollUntilTerminal run_id ])) ∧
    (cleanup_profile run_id = [ ControllerEvent.unsubscribeCall run_id ]) := by
  constructor
  · unfold execute_profile
    rw [h]
  · rfl

/-- C7 witness: the amended sequence at the concrete store dbC7. -/
theorem C7_witness :
    (execute_profile dbC7 "r" none none 3
        = (update_profile_status dbC7 "r" ProfileStatus.running none 3,
           [ ControllerEvent.fetch "r",
             ControllerEvent.subscribeCall "r" "127.0.0.1" 5664,
             ControllerEvent.startRunCall "r" 5664,
             ControllerEvent.pollUntilTerminal "r" ])) ∧
    (cleanup_profile "r" = [ ControllerEvent.unsubscribeCall "r" ]) :=
  C7_execute_sequence dbC7 "r" _ 3 rfl

/-! ## Claim C8 -/

theorem process_queue_count_aux (now : Nat) (items : List QueueItem) :
    ∀ (db : InMemoryDatabase) (n : Nat),
    (items.foldl
       (fun acc it => ((execute_profile acc.1 it.run_id it.subscribeErr it.startErr now).1, acc.2 + 1))
       (db, n)).2 = n + items.length := by
  induction items with
  | nil => intro db n; simp
  | cons it rest ih =>
    intro db n
    rw [List.foldl_cons, ih]
    simp only [List.length_cons]
    omega

/-- C8 amended: an exception raised while preparing or starting a run,
whether in the subscriber start or in the process launch, is caught by
the controller, which stores status FAILED with the exception text as
the error when that text is non-empty (the store drops a falsy error
argument, so an empty text leaves the stored error unchanged), then
runs the inline cleanup whose last action detaches the subscriber, the
only resource the controller acquired, since the allocator calls are
commented out; and a worker loop with the running flag set processes
every dequeued item, so it continues past failing runs rather than
exiting. -/
theorem C8_launch_failure_handling :
    (∀ db run_id p e now, alookup run_id db.profiles = some p → e ≠ "" →
       ∃ q, alookup run_id (execute_profile db run_id (some e) none now).1.profiles = some q ∧
         q.status = ProfileStatus.failed ∧ q.error = some e ∧
         (execute_profile db run_id (some e) none now).2.getLast?
            = some (ControllerEvent.unsubscribeCall run_id)) ∧
    (∀ db run_id p e now, alookup run_id db.profiles = some p → e ≠ "" →
       ∃ q, alookup run_id (execute_profile db run_id none (some e) now).1.profiles = some q ∧
         q.status = ProfileStatus.failed ∧ q.error = some e ∧
         (execute_profile db run_id none (some e) now).2.getLast?
            = some (ControllerEvent.unsubscribeCall run_id)) ∧
    (∀ db items now, (process_queue db true items now).2 = items.length) := by
  refine ⟨?_, ?_, ?_⟩
  · intro db run_id p e now h he
    unfold execute_profile
    rw [h]
    dsimp only
    obtain ⟨q, hq, h1, _, _, herr, _⟩ :=
      update_profile_status_present db run_id ProfileStatus.failed (some e) now p h
    dsimp only at herr
    rw [if_neg he] at herr
    exact ⟨q, hq, h1, herr, rfl⟩
  · intro db run_id p e now h he
    unfold execute_profile
    rw [h]
    dsimp only
    obtain ⟨q1, hq1, _, _, _, _, _⟩ :=
      update_profile_status_present db run_id ProfileStatus.failed (some e) now p h
    obtain ⟨q2, hq2, h1, _, _, herr, _⟩ :=
      update_profile_status_present (update_profile_status db run_id ProfileStatus.failed (some e) now)
        run_id ProfileStatus.failed (some e) now q1 hq1
    dsimp only at herr
    rw [if_neg he] at herr
    exact ⟨q2, hq2, h1, herr, rfl⟩
  · intro db items now
    show (items.foldl _ (db, 0)).2 = items.length
    rw [process_queue_count_aux]
    omega

/-- C8 store: one profile r in PENDING with no stored error. -/
def dbC8 : InMemoryDatabase :=
  create_profile emptyDB
    { run_id := "r", queue_name := "q", config := [], status := ProfileStatus.pending,
      created_at := 0, started_at := none, completed_at := none, error := none }

/-- C8 counterexample: an exception whose text is empty, possible in
Python, falsifies the claim that the exception text is stored as the
error: the store drops a falsy error argument, so the run is marked
FAILED but its error field stays unset rather than holding the text. -/
theorem C8_counterexample :
    ((alookup "r" (execute_profile dbC8 "r" (some "") none 7).1.profiles).map ProfileRecord.status
        = some ProfileStatus.failed) ∧
    ((alookup "r" (execute_profile dbC8 "r" (some "") none 7).1.profiles).map ProfileRecord.error
        = some none) :=
  ⟨rfl, rfl⟩

/-- C8 witness: the subscribe-failure half of the amended theorem at
the concrete store dbC8 with exception text boom. -/
theorem C8_witness :
    ∃ q, alookup "r" (execute_profile dbC8 "r" (some "boom") none 7).1.profiles = some q ∧
      q.status = ProfileStatus.failed ∧ q.error = some "boom" ∧
      (execute_profile dbC8 "r" (some "boom") none 7).2.getLast?
        = some (ControllerEvent.unsubscribeCall "r") :=
  C8_launch_failure_handling.1 dbC8 "r" _ "boom" 7 rfl (by decide)

/-! ## Claim C9 -/

theorem processRecvEvent_malformed {P : Type} (parse : P → Option MetricData)
    (run_id : String) (now : Nat) (db : InMemoryDatabase) (m : RawMessage P)
    (h : parse m.payload = none) :
    processRecvEvent parse run_id now db (RecvEvent.msg m) = db := by
  simp [processRecvEvent, h]

theorem processRecvEvent_wellformed {P : Type} (parse : P → Option MetricData)
    (run_id : String) (now : Nat) (db : InMemoryDatabase) (m : RawMessage P) (d : MetricData)
    (h : parse m.payload = some d) :
    processRecvEvent parse run_id now db (RecvEvent.msg m)
      = add_metric db ⟨run_id, rstripDollar m.topic, d, now⟩ := by
  simp [processRecvEvent, h]

/-- C9: in the ingestion loop, a message whose payload fails to parse
is dropped without storing a metric record and without terminating the
loop: the resulting store is exactly the one obtained with the
malformed message absent, and a subsequent well-formed message is still
decoded, topic-stripped and appended to the store. -/
theorem C9_malformed_payload_skipped {P : Type} (parse : P → Option MetricData)
    (db : InMemoryDatabase) (run_id : String) (pre post : List (RecvEvent P))
    (m : RawMessage P) (now : Nat) (hbad : parse m.payload = none) :
    (subscribe_loop parse db run_id (pre ++ RecvEvent.msg m :: post) now
       = subscribe_loop parse db run_id (pre ++ post) now) ∧
    (∀ (m1 : RawMessage P) (d : MetricData), parse m1.payload = some d →
       subscribe_loop parse db run_id (pre ++ RecvEvent.msg m :: (post ++ [ RecvEvent.msg m1 ])) now
         = add_metric (subscribe_loop parse db run_id (pre ++ post) now)
             ⟨run_id, rstripDollar m1.topic, d, now⟩) := by
  have key : ∀ (l : List (RecvEvent P)),
      subscribe_loop parse db run_id (pre ++ RecvEvent.msg m :: l) now
        = subscribe_loop parse db run_id (pre ++ l) now := by
    intro l
    unfold subscribe_loop
    rw [List.foldl_append, List.foldl_append, List.foldl_cons,
      processRecvEvent_malformed parse run_id now _ m hbad]
  constructor
  · exact key post
  · intro m1 d hd
    rw [key (post ++ [ RecvEvent.msg m1 ])]
    unfold subscribe_loop
    rw [← List.append_assoc, List.foldl_append]
    simp only [List.foldl_cons, List.foldl_nil]
    exact processRecvEvent_wellformed parse run_id now _ m1 d hd

/-- C9 witness parser: the payload bad fails to parse, every other
payload parses to itself. -/
def parseC9 (s : String) : Option MetricData :=
  if s = "bad" then none else some ⟨ s ⟩

/-- C9 witness: the theorem applied to a malformed message followed by
a well-formed one, on the empty store. -/
theorem C9_witness :
    (subscribe_loop parseC9 emptyDB "r" [ RecvEvent.msg ⟨ "t$", "bad" ⟩ ] 3
        = subscribe_loop parseC9 emptyDB "r" [] 3) ∧
    (subscribe_loop parseC9 emptyDB "r"
         [ RecvEvent.msg ⟨ "t$", "bad" ⟩, RecvEvent.msg ⟨ "topic$", "ok" ⟩ ] 3
        = add_metric (subscribe_loop parseC9 emptyDB "r" [] 3)
            ⟨ "r", rstripDollar "topic$", ⟨ "ok" ⟩, 3 ⟩) := by
  have h := C9_malformed_payload_skipped parseC9 emptyDB "r" [] [] ⟨ "t$", "bad" ⟩ 3 rfl
  exact ⟨h.1, h.2 ⟨ "topic$", "ok" ⟩ ⟨ "ok" ⟩ rfl⟩
